import Mathlib

/-!
Verification of the castle structural-integrity subsystem of
`src/demo/castle.rs` (bevy-gamejam-6), via a shallow embedding.

Modelling conventions:
* `Entity` is an opaque handle, embedded as `ℕ`.
* `f32` world-unit quantities in sqrt-free code paths are embedded as `ℚ`
  (exact arithmetic); the anchor calculator, which calls `normalize_or_zero`
  (a square root), is embedded over `ℝ`.
* Bevy's `HashMap<GridCoords, (Entity, BlockSize)>` is embedded as a function
  `GridCoords → Option (Entity × BlockSize)`; `HashMap::insert` is pointwise
  update (last write wins), exactly the source's silent-overwrite semantics.
* ECS systems become explicit functions on a `World` record; `Local<bool>`
  run-once latches become `Bool` fields of the world.
* A `ShockwaveHit` is carried by its impulse magnitude (`shockwave_hit.impulse.length()`,
  a nonnegative scalar), since `handle_castle_impulses` reads only the length.
-/

abbrev Entity := ℕ

/-- Integer grid coordinates, as in `bevy_ecs_ldtk::GridCoords`. -/
structure GridCoords where
  x : ℤ
  y : ℤ
deriving DecidableEq, Repr

/-- `BlockSize(pub Vec2)`: a block's footprint in world units. -/
abbrev BlockSize := ℚ × ℚ

/-- The coordinate→block map built by the first pass of `create_mortar_joints`. -/
abbrev GridMap := GridCoords → Option (Entity × BlockSize)

def emptyGrid : GridMap := fun _ => none

/-- Pointwise map update: the semantics of `HashMap::insert` (silently replaces
any earlier occupant of the key). -/
def updateFn {α β : Type} [DecidableEq α] (m : α → Option β) (k : α) (v : β) :
    α → Option β :=
  fun k' => if k' = k then some v else m k'

/-- Rust `f32::round`: round to nearest, ties away from zero. -/
def rustRound (q : ℚ) : ℤ :=
  if 0 ≤ q then ⌊q + 1 / 2⌋ else -⌊-q + 1 / 2⌋

/-- `(size / grid_cell_size as f32).round() as i32` with `grid_cell_size = 16`,
written in integer arithmetic on the fraction so the kernel can evaluate it
(`⌊q + 1/2⌋ = (2 q.num + q.den) / (2 q.den)` with Euclidean division and
`size / 16 = size.num / (16 size.den)`); `round_div_16_eq_rustRound` below
proves it equal to `rustRound (size / 16)`. -/
def round_div_16 (size : ℚ) : ℤ :=
  if 0 ≤ size then (2 * size.num + 16 * (size.den : ℤ)) / (32 * (size.den : ℤ))
  else -((-2 * size.num + 16 * (size.den : ℤ)) / (32 * (size.den : ℤ)))

/-- The cells visited by the two nested loops of `insert_rectangle_into_map`:
`x` in `top_left.x .. top_left.x + cells_wide` (exclusive) and
`y` in `top_left.y - cells_high + 1 ..= top_left.y` (inclusive). -/
def cellList (topLeft : GridCoords) (cellsWide cellsHigh : ℤ) : List GridCoords :=
  (List.range cellsWide.toNat).flatMap fun (i : ℕ) =>
    (List.range cellsHigh.toNat).map fun (j : ℕ) =>
      GridCoords.mk (topLeft.x + (i : ℤ)) (topLeft.y - cellsHigh + 1 + (j : ℤ))

/-- `insert_rectangle_into_map` (castle.rs lines 135-149): converts the block's
world-unit size to a cell count with `(size / 16.0).round()` and inserts every
cell of the rectangle into the map. -/
def insert_rectangle_into_map (map : GridMap) (top_left : GridCoords)
    (entity : Entity) (block_size : BlockSize) : GridMap :=
  let cells_wide := round_div_16 block_size.1
  let cells_high := round_div_16 block_size.2
  (cellList top_left cells_wide cells_high).foldl
    (fun m c => updateFn m c (entity, block_size)) map

/-- A castle block as queried by the systems: entity id, LDtk grid coords
(top-left origin), footprint size, the ECS `Children` component if the entity
has one (`none` means the entity carries no `Children` component, so a query
accessing `&Children` does not match it), and an optional pending
`ShockwaveHit` carried by its impulse magnitude. -/
structure BlockState where
  entity : Entity
  coords : GridCoords
  size : BlockSize
  children : Option (List Entity)
  hit : Option ℚ
deriving DecidableEq, Repr

/-- First pass of `create_mortar_joints`: fold every block's rectangle into the
shared `global_grid` map, in query order. -/
def global_grid (blocks : List BlockState) : GridMap :=
  blocks.foldl (fun m b => insert_rectangle_into_map m b.coords b.entity b.size)
    emptyGrid

/-- The two probe directions of the second pass: Right and Down
(Left and Up are commented out in the source). -/
def directions : List GridCoords := [GridCoords.mk 1 0, GridCoords.mk 0 (-1)]

/-- One probe of the second pass: look up `coordinate + dir` in the global
grid; skip empty cells and self-references, otherwise emit the joint pair
`(castle_entity, neighbor)`. -/
def probe_joint (g : GridMap) (b : BlockState) (d : GridCoords) :
    Option (Entity × Entity) :=
  match g (GridCoords.mk (b.coords.x + d.x) (b.coords.y + d.y)) with
  | some (neighbor, _s) =>
      if neighbor = b.entity then none else some (b.entity, neighbor)
  | none => none

/-- The joint pairs spawned by `create_mortar_joints` (castle.rs lines
155-247): build the global grid from all blocks, then for each block probe
Right and Down FROM ITS `GridCoords` (the block's origin cell). -/
def create_mortar_joints (blocks : List BlockState) : List (Entity × Entity) :=
  let g := global_grid blocks
  blocks.flatMap fun b => directions.filterMap (probe_joint g b)

/-- A spawned joint entity: the `FixedJoint` connecting `e1` and `e2`, living
at its own entity id (spawned with `commands.spawn`, NOT as a child of either
block). -/
structure JointEnt where
  id : Entity
  e1 : Entity
  e2 : Entity
deriving DecidableEq, Repr

/-- `commands.spawn((create_joint(..),))` for each discovered pair: each joint
gets a fresh entity id; no block's `Children` nor `CastleBlock::joints` is
touched. -/
def spawn_joints : List (Entity × Entity) → Entity → List JointEnt
  | [], _ => []
  | p :: ps, n => JointEnt.mk n p.1 p.2 :: spawn_joints ps (n + 1)

/-- The ECS world slice the castle systems touch: castle blocks, spawned joint
entities, the `Mass` components, the two `Local<bool>` run-once latches, and a
fresh-entity counter for `commands.spawn`. -/
structure World where
  blocks : List BlockState
  joints : List JointEnt
  masses : Entity → Option ℚ
  ran_mortar_joints : Bool
  ran_update_mass : Bool
  next_id : Entity

/-- The `create_mortar_joints` system (castle.rs lines 155-247) as a world
step: early-return if the `ran_mortar_joints` latch is set; early-return
(without setting the latch) if the query is empty; otherwise spawn one joint
entity per discovered pair and set the latch. -/
def create_mortar_joints_system (w : World) : World :=
  if w.ran_mortar_joints then w
  else if w.blocks.isEmpty then w
  else
    { w with
      joints := w.joints ++ spawn_joints (create_mortar_joints w.blocks) w.next_id
      next_id := w.next_id + (create_mortar_joints w.blocks).length
      ran_mortar_joints := true }

/-- `update_castle_mass` (castle.rs lines 92-109): gated by `ran_update_mass`;
early-return on an empty query; otherwise insert `Mass(10000.0)` for every
queried castle entity and set the latch. -/
def update_castle_mass_system (w : World) : World :=
  if w.ran_update_mass then w
  else if w.blocks.isEmpty then w
  else
    { w with
      masses := (w.blocks.map BlockState.entity).foldl
        (fun f e => updateFn f e (10000 : ℚ)) w.masses
      ran_update_mass := true }

/-- The one-time initialization pass: joint building then mass assignment
(both run in `Update`; order is immaterial since they touch disjoint state). -/
def initialization_pass (w : World) : World :=
  update_castle_mass_system (create_mortar_joints_system w)

/-- `BREAKING_IMPULSE_THRESHOLD` (castle.rs line 303). -/
def BREAKING_IMPULSE_THRESHOLD : ℚ := 30000

/-- The fracture test of `handle_castle_impulses` (line 314):
`impulse_magnitude > BREAKING_IMPULSE_THRESHOLD`, a strict comparison. -/
def breaksThreshold (impulse_magnitude : ℚ) : Bool :=
  BREAKING_IMPULSE_THRESHOLD < impulse_magnitude

/-- The entities despawned on account of one block: the fracture query
`(Entity, &ShockwaveHit, &Children)` (castle.rs line 299) matches a block only
if it has BOTH a pending hit and a `Children` component; a matched block's
children are despawned when the magnitude exceeds the threshold. Blocks the
query does not match contribute nothing. -/
def despawns_of (b : BlockState) : List Entity :=
  match b.hit, b.children with
  | some m, some child_joints =>
      if breaksThreshold m then child_joints else []
  | _, _ => []

/-- Per-block state change of `handle_castle_impulses`: only blocks matched by
the query — pending `ShockwaveHit` AND a `Children` component — get
`remove::<ShockwaveHit>()`; every other block, including a hit block without a
`Children` component, is untouched (its hit stays pending). -/
def process_block (b : BlockState) : BlockState :=
  if b.hit.isSome && b.children.isSome then { b with hit := none } else b

/-- `handle_castle_impulses` (castle.rs lines 296-330) as a world step: for
every block matched by the query (pending hit and a `Children` component),
despawn its children when the magnitude exceeds the threshold and remove the
`ShockwaveHit`; despawned entities disappear from the joint list. Hit blocks
without a `Children` component are skipped entirely. -/
def handle_castle_impulses (w : World) : World :=
  { w with
    blocks := w.blocks.map process_block
    joints := w.joints.filter fun j => !(w.blocks.flatMap despawns_of).contains j.id }

/-- Truncating rational-to-integer conversion (round toward zero). -/
def ratTrunc (q : ℚ) : ℤ := if 0 ≤ q then ⌊q⌋ else -⌊-q⌋

/-- Modelled from the spec: the cell count the spec prescribes, "truncating
integer division of size by the 16-unit grid cell (cells_wide = w/16)". -/
def spec_cells (size : ℚ) : ℤ := ratTrunc (size / 16)

/-- Modelled from the spec: the occupied-cell rectangle claimed in C5, with
truncating division (columns `origin.x` rightward, rows `origin.y` down to
`origin.y - cells_high + 1`). -/
def spec_occupies (top_left : GridCoords) (w h : ℚ) (c : GridCoords) : Prop :=
  top_left.x ≤ c.x ∧ c.x < top_left.x + spec_cells w ∧
    top_left.y - spec_cells h + 1 ≤ c.y ∧ c.y ≤ top_left.y

/-- glam's `Vec2::normalize_or_zero`, over exact reals: the zero vector if the
length is zero, otherwise the unit vector in the same direction. -/
noncomputable def normalize_or_zero (v : ℝ × ℝ) : ℝ × ℝ :=
  let len := Real.sqrt (v.1 ^ 2 + v.2 ^ 2)
  if len = 0 then (0, 0) else (v.1 / len, v.2 / len)

/-- `calculate_anchor` (castle.rs lines 249-271), over exact reals: scale the
normalized connection direction by half the block size, componentwise. -/
noncomputable def calculate_anchor (direction : ℝ × ℝ) (block_size : ℝ × ℝ) :
    ℝ × ℝ :=
  let norm := normalize_or_zero direction
  (norm.1 * block_size.1 / 2, norm.2 * block_size.2 / 2)

/-- The condition of the `warn!` branch inside `calculate_anchor` (lines
260-264): the computed anchor lies outside the block's half-extent box. -/
def anchor_out_of_range (result : ℝ × ℝ) (block_size : ℝ × ℝ) : Prop :=
  result.1 > block_size.1 / 2 ∨ result.1 < -block_size.1 / 2 ∨
    result.2 > block_size.2 / 2 ∨ result.2 < -block_size.2 / 2

/-- The two local anchors computed by `create_joint` (castle.rs lines
273-294): `calculate_anchor(connection, size1)` for the first block and the
negation of `calculate_anchor(connection, size2)` for the second. -/
noncomputable def create_joint_anchors (connection : ℝ × ℝ)
    (block_size_one block_size_two : ℝ × ℝ) : (ℝ × ℝ) × (ℝ × ℝ) :=
  (calculate_anchor connection block_size_one,
    -calculate_anchor connection block_size_two)

/-! ### Concrete example data -/

/-- A block two cells wide (32×16 world units) with origin cell (0,0): it
occupies cells (0,0) and (1,0). -/
def wideBlock : BlockState := BlockState.mk 0 (GridCoords.mk 0 0) (32, 16) none none

/-- A single-cell block at (2,0), cardinally adjacent to `wideBlock`'s cell
(1,0) but not to its origin cell. -/
def rightBlock : BlockState := BlockState.mk 1 (GridCoords.mk 2 0) (16, 16) none none

/-- A block smaller than half a grid cell on both axes (4×4 world units). -/
def tinyBlock : BlockState := BlockState.mk 0 (GridCoords.mk 0 0) (4, 4) none none

/-- A single-cell block at (1,0), right of `tinyBlock`'s origin cell. -/
def rightOfTiny : BlockState := BlockState.mk 1 (GridCoords.mk 1 0) (16, 16) none none

/-- A freshly loaded two-block level: two adjacent 16×16 blocks, no joints
yet, neither run-once latch set, next spawned entity id 5. -/
def levelWorld : World :=
  World.mk [BlockState.mk 0 (GridCoords.mk 0 0) (16, 16) none none,
            BlockState.mk 1 (GridCoords.mk 1 0) (16, 16) none none]
    [] (fun _ => none) false false 5

/-- `levelWorld` after the joint-building system ran (it spawns the joint
entity 5 between blocks 0 and 1) and after the collision system then delivered
a `ShockwaveHit` of magnitude 40000 to block 0. Neither block has a
`Children` component: the spawned joint entity 5 was registered with neither
of them. -/
def hitWorld : World :=
  { create_mortar_joints_system levelWorld with
    blocks := [BlockState.mk 0 (GridCoords.mk 0 0) (16, 16) none (some 40000),
               BlockState.mk 1 (GridCoords.mk 1 0) (16, 16) none none] }

/-- A world whose two blocks have different footprint areas (16×16 = 256 and
32×32 = 1024 world units²), before the mass pass ran. -/
def twoAreaWorld : World :=
  World.mk [BlockState.mk 0 (GridCoords.mk 0 0) (16, 16) none none,
            BlockState.mk 1 (GridCoords.mk 5 5) (32, 32) none none]
    [] (fun _ => none) false false 0

/-- A world with one joint and one castle block carrying a pending
sub-threshold hit (magnitude 100) but NO `Children` component - the state of
every castle block in this repository, since joints are spawned free-standing
and nothing else parents children to a block. -/
def childlessHitWorld : World :=
  World.mk [BlockState.mk 0 (GridCoords.mk 0 0) (16, 16) none (some 100)]
    [JointEnt.mk 9 0 1] (fun _ => none) true true 10

/-! ### Helper lemmas -/

lemma floor_intCast_div_pos (a b : ℤ) (hb : 0 < b) :
    ⌊(a : ℚ) / (b : ℚ)⌋ = a / b := by
  have hb' : b = ((b.toNat : ℕ) : ℤ) := by omega
  rw [hb']
  push_cast
  exact Rat.floor_intCast_div_natCast a b.toNat

/-- The executable cell count agrees with Rust's
`(size / 16.0).round() as i32`. -/
lemma round_div_16_eq_rustRound (size : ℚ) :
    round_div_16 size = rustRound (size / 16) := by
  have hden : (0 : ℤ) < (size.den : ℤ) := by exact_mod_cast size.pos
  unfold round_div_16 rustRound
  have h16 : (0 : ℚ) ≤ size / 16 ↔ 0 ≤ size := by
    constructor <;> intro h <;> nlinarith
  by_cases hs : 0 ≤ size
  · rw [if_pos hs, if_pos (h16.mpr hs)]
    have key : size / 16 + 1 / 2 =
        ((2 * size.num + 16 * (size.den : ℤ) : ℤ) : ℚ) /
          ((32 * (size.den : ℤ) : ℤ) : ℚ) := by
      have hdenQ : ((size.den : ℚ)) ≠ 0 := by positivity
      conv_lhs => rw [← Rat.num_div_den size]
      push_cast
      field_simp
      ring
    rw [key, floor_intCast_div_pos _ _ (by positivity)]
  · rw [if_neg hs, if_neg (fun h => hs (h16.mp h))]
    have key : -(size / 16) + 1 / 2 =
        ((-2 * size.num + 16 * (size.den : ℤ) : ℤ) : ℚ) /
          ((32 * (size.den : ℤ) : ℤ) : ℚ) := by
      have hdenQ : ((size.den : ℚ)) ≠ 0 := by positivity
      conv_lhs => rw [← Rat.num_div_den size]
      push_cast
      field_simp
      ring
    rw [key, floor_intCast_div_pos _ _ (by positivity)]

/-- Folding same-valued pointwise updates over a key list: last write wins,
and all writes carry the same value. -/
lemma foldl_updateFn_const {α β : Type} [DecidableEq α] (ks : List α) (v : β)
    (m : α → Option β) (k : α) :
    (ks.foldl (fun f k' => updateFn f k' v) m) k =
      if k ∈ ks then some v else m k := by
  induction ks generalizing m with
  | nil => simp
  | cons a l ih =>
      simp only [List.foldl_cons, ih, List.mem_cons, updateFn]
      by_cases hl : k ∈ l
      · simp [hl]
      · by_cases ha : k = a <;> simp [hl, ha]

/-- Membership in the loop-cell list is the rectangle condition. -/
lemma mem_cellList (tl : GridCoords) (cw ch : ℤ) (c : GridCoords) :
    c ∈ cellList tl cw ch ↔
      tl.x ≤ c.x ∧ c.x < tl.x + cw ∧ tl.y - ch + 1 ≤ c.y ∧ c.y ≤ tl.y := by
  cases c with
  | mk cx cy =>
      rw [cellList, List.mem_flatMap]
      dsimp only
      constructor
      · rintro ⟨i, hi, hc⟩
        rw [List.mem_range] at hi
        rw [List.mem_map] at hc
        obtain ⟨j, hj, hcc⟩ := hc
        rw [List.mem_range] at hj
        rw [GridCoords.mk.injEq] at hcc
        obtain ⟨hx, hy⟩ := hcc
        refine ⟨by omega, by omega, by omega, by omega⟩
      · rintro ⟨h1, h2, h3, h4⟩
        refine ⟨(cx - tl.x).toNat, ?_, ?_⟩
        · rw [List.mem_range]; omega
        · rw [List.mem_map]
          refine ⟨(cy - (tl.y - ch + 1)).toNat, ?_, ?_⟩
          · rw [List.mem_range]; omega
          · rw [GridCoords.mk.injEq]
            exact ⟨by omega, by omega⟩

/-- Pointwise description of `insert_rectangle_into_map`: cells of the rounded
rectangle map to `(entity, block_size)`, all other cells keep their old value. -/
lemma insert_rectangle_into_map_apply (m : GridMap) (tl : GridCoords)
    (e : Entity) (bs : BlockSize) (c : GridCoords) :
    insert_rectangle_into_map m tl e bs c =
      if tl.x ≤ c.x ∧ c.x < tl.x + round_div_16 bs.1 ∧
          tl.y - round_div_16 bs.2 + 1 ≤ c.y ∧ c.y ≤ tl.y
        then some (e, bs) else m c := by
  unfold insert_rectangle_into_map
  simp only [foldl_updateFn_const, mem_cellList]

/-- Rounding a value below one half gives a nonpositive cell count. -/
lemma rustRound_nonpos (q : ℚ) (h : q < 1 / 2) : rustRound q ≤ 0 := by
  unfold rustRound
  by_cases hq : 0 ≤ q
  · rw [if_pos hq]
    have : ⌊q + 1 / 2⌋ < 1 := by
      rw [Int.floor_lt]
      push_cast
      linarith
    omega
  · rw [if_neg hq]
    have : (0 : ℤ) ≤ ⌊-q + 1 / 2⌋ := by
      rw [Int.le_floor]
      push_cast
      linarith
    omega

/-- A block axis shorter than 8 world units rounds to zero cells. -/
lemma round_div_16_nonpos (s : ℚ) (h : s < 8) : round_div_16 s ≤ 0 := by
  rw [round_div_16_eq_rustRound]
  exact rustRound_nonpos _ (by linarith)

/-- What one probe of the second pass of `create_mortar_joints` returns. -/
lemma probe_joint_eq_some (g : GridMap) (b : BlockState) (d : GridCoords)
    (e1 e2 : Entity) :
    probe_joint g b d = some (e1, e2) ↔
      e1 = b.entity ∧ e2 ≠ b.entity ∧
        ∃ s, g (GridCoords.mk (b.coords.x + d.x) (b.coords.y + d.y)) =
          some (e2, s) := by
  unfold probe_joint
  cases hg : g (GridCoords.mk (b.coords.x + d.x) (b.coords.y + d.y)) with
  | none => simp
  | some p =>
      cases p with
      | mk n s0 =>
          by_cases hn : n = b.entity
          · subst hn
            simp only [if_pos rfl, Option.some.injEq, Prod.mk.injEq]
            constructor
            · intro hfalse
              exact absurd hfalse (by simp)
            · rintro ⟨_h1, h2, s, hs1, _hs2⟩
              exact absurd hs1.symm h2
          · simp only [if_neg hn, Option.some.injEq, Prod.mk.injEq]
            constructor
            · rintro ⟨h1, h2⟩
              subst h1
              subst h2
              exact ⟨rfl, hn, s0, rfl, rfl⟩
            · rintro ⟨h1, _h2, s, hs1, _hs2⟩
              exact ⟨h1.symm, hs1⟩

/-- The latched joint system does nothing once its latch is set. -/
lemma mortar_system_of_ran (w : World) (h : w.ran_mortar_joints = true) :
    create_mortar_joints_system w = w := by
  unfold create_mortar_joints_system
  rw [if_pos h]

/-- The latched mass system does nothing once its latch is set. -/
lemma mass_system_of_ran (w : World) (h : w.ran_update_mass = true) :
    update_castle_mass_system w = w := by
  unfold update_castle_mass_system
  rw [if_pos h]

lemma mortar_system_of_empty (w : World) (h : w.blocks.isEmpty = true) :
    create_mortar_joints_system w = w := by
  unfold create_mortar_joints_system
  split_ifs
  · rfl
  · rfl

lemma mass_system_of_empty (w : World) (h : w.blocks.isEmpty = true) :
    update_castle_mass_system w = w := by
  unfold update_castle_mass_system
  split_ifs
  · rfl
  · rfl

lemma mortar_system_blocks (w : World) :
    (create_mortar_joints_system w).blocks = w.blocks := by
  unfold create_mortar_joints_system
  split_ifs <;> rfl

lemma mass_system_ran_mortar (w : World) :
    (update_castle_mass_system w).ran_mortar_joints = w.ran_mortar_joints := by
  unfold update_castle_mass_system
  split_ifs <;> rfl

lemma mortar_system_sets_flag (w : World) (h : w.blocks.isEmpty = false) :
    (create_mortar_joints_system w).ran_mortar_joints = true := by
  unfold create_mortar_joints_system
  split_ifs with h1 h2
  · exact h1
  · rw [h2] at h; exact absurd h (by simp)
  · rfl

lemma mass_system_sets_flag (w : World) (h : w.blocks.isEmpty = false) :
    (update_castle_mass_system w).ran_update_mass = true := by
  unfold update_castle_mass_system
  split_ifs with h1 h2
  · exact h1
  · rw [h2] at h; exact absurd h (by simp)
  · rfl

/-- The x-component of a normalized-or-zero vector has absolute value at
most one. -/
lemma abs_normalize_fst_le_one (v : ℝ × ℝ) :
    |(normalize_or_zero v).1| ≤ 1 := by
  unfold normalize_or_zero
  by_cases h : Real.sqrt (v.1 ^ 2 + v.2 ^ 2) = 0
  · rw [if_pos h]
    norm_num
  · rw [if_neg h]
    have hnn : 0 ≤ Real.sqrt (v.1 ^ 2 + v.2 ^ 2) := Real.sqrt_nonneg _
    have hpos : 0 < Real.sqrt (v.1 ^ 2 + v.2 ^ 2) := lt_of_le_of_ne hnn (Ne.symm h)
    have hle : |v.1| ≤ Real.sqrt (v.1 ^ 2 + v.2 ^ 2) := by
      calc |v.1| = Real.sqrt (v.1 ^ 2) := by
              rw [Real.sqrt_sq_eq_abs]
        _ ≤ Real.sqrt (v.1 ^ 2 + v.2 ^ 2) :=
              Real.sqrt_le_sqrt (by nlinarith [sq_nonneg v.2])
    rw [abs_div, abs_of_pos hpos]
    exact div_le_one_of_le₀ hle hnn

/-- The y-component of a normalized-or-zero vector has absolute value at
most one. -/
lemma abs_normalize_snd_le_one (v : ℝ × ℝ) :
    |(normalize_or_zero v).2| ≤ 1 := by
  unfold normalize_or_zero
  by_cases h : Real.sqrt (v.1 ^ 2 + v.2 ^ 2) = 0
  · rw [if_pos h]
    norm_num
  · rw [if_neg h]
    have hnn : 0 ≤ Real.sqrt (v.1 ^ 2 + v.2 ^ 2) := Real.sqrt_nonneg _
    have hpos : 0 < Real.sqrt (v.1 ^ 2 + v.2 ^ 2) := lt_of_le_of_ne hnn (Ne.symm h)
    have hle : |v.2| ≤ Real.sqrt (v.1 ^ 2 + v.2 ^ 2) := by
      calc |v.2| = Real.sqrt (v.2 ^ 2) := by
              rw [Real.sqrt_sq_eq_abs]
        _ ≤ Real.sqrt (v.1 ^ 2 + v.2 ^ 2) :=
              Real.sqrt_le_sqrt (by nlinarith [sq_nonneg v.1])
    rw [abs_div, abs_of_pos hpos]
    exact div_le_one_of_le₀ hle hnn

/-- `calculate_anchor` stays inside the half-extent box of its own block. -/
lemma abs_calculate_anchor_le (direction : ℝ × ℝ) (bs : ℝ × ℝ)
    (hx : 0 ≤ bs.1) (hy : 0 ≤ bs.2) :
    |(calculate_anchor direction bs).1| ≤ bs.1 / 2 ∧
      |(calculate_anchor direction bs).2| ≤ bs.2 / 2 := by
  unfold calculate_anchor
  have h1 := abs_le.mp (abs_normalize_fst_le_one direction)
  have h2 := abs_le.mp (abs_normalize_snd_le_one direction)
  dsimp only
  constructor
  · rw [abs_le]
    constructor <;> nlinarith [h1.1, h1.2]
  · rw [abs_le]
    constructor <;> nlinarith [h2.1, h2.2]

/-! ### Claim theorems -/

/-- Claim C1 (counterexample): a level where blocks span multiple cells on
which the pass creates NO joint for an adjacent pair of distinct blocks.
`wideBlock` (entity 0) occupies cells (0,0),(1,0); `rightBlock` (entity 1)
occupies (2,0), cardinally adjacent to (1,0). The probes run only from each
block's origin cell ((0,0) and (2,0)), so the adjacency at (1,0)-(2,0) is
never discovered and the pass creates zero joints, not exactly one. -/
theorem C1_adjacent_multicell_blocks_unjoined :
    global_grid [wideBlock, rightBlock] (GridCoords.mk 1 0) =
        some (0, ((32 : ℚ), (16 : ℚ))) ∧
      global_grid [wideBlock, rightBlock] (GridCoords.mk 2 0) =
        some (1, ((16 : ℚ), (16 : ℚ))) ∧
      wideBlock.entity ≠ rightBlock.entity ∧
      create_mortar_joints [wideBlock, rightBlock] = [] := by
  refine ⟨by decide, by decide, by decide, by decide⟩

/-- Claim C1 (amended): the pass probes `+x` and `-y` from each block's ORIGIN
cell only, not from every occupied cell. A pair `(e1, e2)` is created exactly
when some listed block with entity `e1` has the cell right of or below its
origin occupied in the global grid by a different entity `e2`; in particular
no joint ever pairs a block with itself, but adjacencies of multi-cell blocks
that do not touch an origin-cell probe produce no joint. -/
theorem C1_origin_probe_characterization (blocks : List BlockState)
    (e1 e2 : Entity) :
    (e1, e2) ∈ create_mortar_joints blocks ↔
      ∃ b ∈ blocks, b.entity = e1 ∧ e2 ≠ e1 ∧
        ∃ d ∈ directions, ∃ s,
          global_grid blocks
            (GridCoords.mk (b.coords.x + d.x) (b.coords.y + d.y)) =
            some (e2, s) := by
  unfold create_mortar_joints
  rw [List.mem_flatMap]
  constructor
  · rintro ⟨b, hb, hmem⟩
    rw [List.mem_filterMap] at hmem
    obtain ⟨d, hd, hpd⟩ := hmem
    rw [probe_joint_eq_some] at hpd
    obtain ⟨he1, hne, s, hg⟩ := hpd
    subst he1
    exact ⟨b, hb, rfl, hne, d, hd, s, hg⟩
  · rintro ⟨b, hb, he1, hne, d, hd, s, hg⟩
    subst he1
    refine ⟨b, hb, ?_⟩
    rw [List.mem_filterMap]
    refine ⟨d, hd, ?_⟩
    rw [probe_joint_eq_some]
    exact ⟨rfl, hne, s, hg⟩

/-- Claim C2 (code evaluated at the failing input): `create_mortar_joints`
spawns the joint between blocks 0 and 1 as a free entity (id 5) and registers
it with neither block — neither block ends up with a `Children` component
containing it (nor any `Children` component at all) — so when block 0 later
receives an impulse of magnitude 40000, well above the 30000 threshold,
`handle_castle_impulses` (which despawns only entities found in the block's
`Children`) leaves the joint alive, contradicting the claim that every joint
attached to the block is destroyed. -/
theorem C2_unregistered_joint_survives_impulse :
    (create_mortar_joints_system levelWorld).joints = [JointEnt.mk 5 0 1] ∧
      (∀ b ∈ hitWorld.blocks, b.children = none) ∧
      breaksThreshold 40000 = true ∧
      (handle_castle_impulses hitWorld).joints = [JointEnt.mk 5 0 1] := by
  refine ⟨by decide, by decide, by decide, by decide⟩

/-- Claim C3 (code evaluated at the failing input): inserting block 2 at the
grid origin already occupied by block 1 silently replaces the entry — the
return type of `insert_rectangle_into_map` has no error channel and the
earlier occupant is lost without any detection or diagnostic. -/
theorem C3_second_insert_overwrites_silently :
    insert_rectangle_into_map emptyGrid (GridCoords.mk 0 0) 1
        ((16 : ℚ), (16 : ℚ)) (GridCoords.mk 0 0) = some (1, (16, 16)) ∧
      insert_rectangle_into_map
          (insert_rectangle_into_map emptyGrid (GridCoords.mk 0 0) 1 (16, 16))
          (GridCoords.mk 0 0) 2 ((16 : ℚ), (16 : ℚ)) (GridCoords.mk 0 0) =
        some (2, (16, 16)) := by
  refine ⟨by decide, by decide⟩

/-- Claim C4 (counterexample): an impulse of magnitude exactly
`BREAKING_IMPULSE_THRESHOLD` is NOT classified as a fracture — the code uses
the strict comparison `>` on line 314 — so a block with a pending hit at the
exact threshold despawns none of its children, contrary to the claim that ≥
is the break condition. -/
theorem C4_equal_threshold_does_not_fracture :
    breaksThreshold BREAKING_IMPULSE_THRESHOLD = false ∧
      despawns_of (BlockState.mk 0 (GridCoords.mk 0 0) (16, 16) (some [7])
        (some BREAKING_IMPULSE_THRESHOLD)) = [] := by
  refine ⟨by decide, by decide⟩

/-- Claim C4 (amended): the fracture classification uses strict `>` as the
break condition: a magnitude at or below the threshold (in particular exactly
equal, or one unit below) never despawns anything, and a magnitude strictly
above (in particular one unit above) always despawns the block's attached
children. -/
theorem C4_strict_threshold_boundary (b : BlockState) (m : ℚ)
    (hhit : b.hit = some m) :
    (m ≤ BREAKING_IMPULSE_THRESHOLD → despawns_of b = []) ∧
      (BREAKING_IMPULSE_THRESHOLD < m → despawns_of b = b.children.getD []) := by
  cases hch : b.children with
  | none =>
      constructor
      · intro _
        simp [despawns_of, hhit, hch]
      · intro _
        simp [despawns_of, hhit, hch]
  | some cs =>
      constructor
      · intro hle
        have hbt : breaksThreshold m = false := by
          simp only [breaksThreshold, decide_eq_false_iff_not]
          exact not_lt.mpr hle
        simp [despawns_of, hhit, hch, hbt]
      · intro hlt
        have hbt : breaksThreshold m = true := by
          simp only [breaksThreshold, decide_eq_true_eq]
          exact hlt
        simp [despawns_of, hhit, hch, hbt]

/-- Witness for `C4_strict_threshold_boundary` at a concrete block whose hit
magnitude is 30001, one unit above the threshold. -/
theorem C4_strict_threshold_boundary_witness :
    ((30001 : ℚ) ≤ BREAKING_IMPULSE_THRESHOLD →
        despawns_of (BlockState.mk 0 (GridCoords.mk 0 0) (16, 16) (some [7])
          (some 30001)) = []) ∧
      (BREAKING_IMPULSE_THRESHOLD < (30001 : ℚ) →
        despawns_of (BlockState.mk 0 (GridCoords.mk 0 0) (16, 16) (some [7])
            (some 30001)) =
          (BlockState.mk 0 (GridCoords.mk 0 0) (16, 16) (some [7])
            (some 30001)).children.getD []) :=
  C4_strict_threshold_boundary
    (BlockState.mk 0 (GridCoords.mk 0 0) (16, 16) (some [7]) (some 30001))
    30001 rfl

/-- Claim C5 (counterexample): a 24×16 block at origin (0,0). Under the
claimed truncating division it is 1 cell wide (24/16 truncates to 1), so cell
(1,0) would be unoccupied; the code rounds (24/16 = 1.5 rounds to 2) and does
occupy cell (1,0). -/
theorem C5_truncation_misses_rounded_cell :
    insert_rectangle_into_map emptyGrid (GridCoords.mk 0 0) 0
        ((24 : ℚ), (16 : ℚ)) (GridCoords.mk 1 0) = some (0, (24, 16)) ∧
      ¬spec_occupies (GridCoords.mk 0 0) 24 16 (GridCoords.mk 1 0) := by
  constructor
  · decide
  · norm_num [spec_occupies, spec_cells, ratTrunc]

/-- Claim C5 (amended): the occupied cells are the rectangle computed with
ROUND-TO-NEAREST division of size by the 16-unit grid cell
(`cells_wide = round(w/16)`, Rust `f32::round`, ties away from zero), spanning
columns `origin.x` rightward and rows from `origin.y` down to
`origin.y - cells_high + 1`; for a 32×16 block at (0,0) this still gives
exactly the cells (0,0) and (1,0), since 32/16 = 2 exactly. -/
theorem C5_rounded_rectangle_characterization (tl : GridCoords) (e : Entity)
    (bs : BlockSize) (c : GridCoords) :
    insert_rectangle_into_map emptyGrid tl e bs c = some (e, bs) ↔
      tl.x ≤ c.x ∧ c.x < tl.x + rustRound (bs.1 / 16) ∧
        tl.y - rustRound (bs.2 / 16) + 1 ≤ c.y ∧ c.y ≤ tl.y := by
  rw [insert_rectangle_into_map_apply, ← round_div_16_eq_rustRound,
    ← round_div_16_eq_rustRound]
  split_ifs with h
  · simp only [Option.some.injEq, Prod.mk.injEq]
    constructor
    · intro _
      exact h
    · intro _
      trivial
  · simp only [emptyGrid]
    constructor
    · intro hfalse
      exact absurd hfalse (by simp)
    · intro hc
      exact absurd hc h

/-- Claim C6 (counterexample): `twoAreaWorld` holds a 16×16 block (area 256)
and a 32×32 block (area 1024); the mass pass gives BOTH the constant mass
10000, so blocks of different footprint areas do not receive different masses
and no `base_mass * sqrt(area / reference_area)` scaling occurs. -/
theorem C6_different_areas_equal_mass :
    BlockState.mk 0 (GridCoords.mk 0 0) (16, 16) none none ∈ twoAreaWorld.blocks ∧
      BlockState.mk 1 (GridCoords.mk 5 5) (32, 32) none none ∈ twoAreaWorld.blocks ∧
      (16 : ℚ) * 16 ≠ (32 : ℚ) * 32 ∧
      (update_castle_mass_system twoAreaWorld).masses 0 = some 10000 ∧
      (update_castle_mass_system twoAreaWorld).masses 1 = some 10000 := by
  refine ⟨by decide, by decide, by norm_num, by decide, by decide⟩

/-- Claim C6 (amended): the one-time mass pass assigns the constant
`Mass(10000.0)` to every castle block, independent of the block's footprint
area. -/
theorem C6_mass_pass_assigns_constant (w : World) (b : BlockState)
    (hran : w.ran_update_mass = false) (hb : b ∈ w.blocks) :
    (update_castle_mass_system w).masses b.entity = some 10000 := by
  have hne : w.blocks.isEmpty = false := by
    cases hbs : w.blocks with
    | nil => rw [hbs] at hb; exact absurd hb (List.not_mem_nil b)
    | cons x xs => rfl
  unfold update_castle_mass_system
  split_ifs with h1 h2
  · exact absurd h1 (by rw [hran]; simp)
  · rw [h2] at hne; exact absurd hne (by simp)
  · dsimp only
    rw [foldl_updateFn_const,
      if_pos (List.mem_map.mpr ⟨b, hb, rfl⟩)]

/-- Witness for `C6_mass_pass_assigns_constant` at `twoAreaWorld` and its
first block. -/
theorem C6_mass_pass_assigns_constant_witness :
    (update_castle_mass_system twoAreaWorld).masses
        (BlockState.mk 0 (GridCoords.mk 0 0) (16, 16) none none).entity =
      some 10000 :=
  C6_mass_pass_assigns_constant twoAreaWorld
    (BlockState.mk 0 (GridCoords.mk 0 0) (16, 16) none none) rfl (by decide)

/-- Claim C7: the initialization pass (grid indexing, adjacency probing and
joint spawning inside `create_mortar_joints_system`, then mass assignment in
`update_castle_mass_system`) is idempotent: running it a second time on the
resulting world changes nothing — the `Local<bool>` latches make both systems
early-return — so no duplicate joints are spawned and no mass is reassigned. -/
theorem C7_initialization_pass_idempotent (w : World) :
    initialization_pass (initialization_pass w) = initialization_pass w := by
  unfold initialization_pass
  by_cases hb : w.blocks.isEmpty = true
  · have e1 := mortar_system_of_empty w hb
    have e2 := mass_system_of_empty w hb
    rw [e1, e2, e1, e2]
  · have hbf : w.blocks.isEmpty = false := by
      cases h : w.blocks.isEmpty
      · rfl
      · exact absurd h hb
    have hm1 : (create_mortar_joints_system w).ran_mortar_joints = true :=
      mortar_system_sets_flag w hbf
    have hm2 :
        (update_castle_mass_system
          (create_mortar_joints_system w)).ran_update_mass = true :=
      mass_system_sets_flag _ (by rw [mortar_system_blocks]; exact hbf)
    have hm3 :
        (update_castle_mass_system
          (create_mortar_joints_system w)).ran_mortar_joints = true := by
      rw [mass_system_ran_mortar]; exact hm1
    rw [mortar_system_of_ran _ hm3, mass_system_of_ran _ hm2]

/-- Claim C8 (code evaluated at the failing input): the fracture query asks
for `&Children` (castle.rs line 299), so a castle block carrying a pending
`ShockwaveHit` but no `Children` component — the state of every castle block
in this repository, since joints are spawned free-standing and nothing else
parents children to a block — is never matched by the system: even a
sub-threshold hit of magnitude 100 is NOT removed after the system runs (the
block still carries `some 100`, so the same impulse event is never consumed),
contradicting the claim that the `ShockwaveHit` component is removed from the
block after processing in every case. No joints are despawned either way. -/
theorem C8_childless_block_keeps_hit :
    (∀ b ∈ childlessHitWorld.blocks, b.children = none) ∧
      breaksThreshold 100 = false ∧
      (handle_castle_impulses childlessHitWorld).blocks =
        [BlockState.mk 0 (GridCoords.mk 0 0) (16, 16) none (some 100)] ∧
      (handle_castle_impulses childlessHitWorld).joints =
        childlessHitWorld.joints := by
  refine ⟨by decide, by decide, by decide, by decide⟩

/-- Claim C9: for every connection direction and every pair of block sizes
with nonnegative components, both anchors computed by `create_joint` (the
anchor for the first block and the negated anchor for the second) lie within
their own block's half-extent box, and the `warn!` branch of
`calculate_anchor` is unreachable for both calls. -/
theorem C9_anchors_within_half_extents (dir bs1 bs2 : ℝ × ℝ)
    (h11 : 0 ≤ bs1.1) (h12 : 0 ≤ bs1.2) (h21 : 0 ≤ bs2.1) (h22 : 0 ≤ bs2.2) :
    |(create_joint_anchors dir bs1 bs2).1.1| ≤ bs1.1 / 2 ∧
      |(create_joint_anchors dir bs1 bs2).1.2| ≤ bs1.2 / 2 ∧
      |(create_joint_anchors dir bs1 bs2).2.1| ≤ bs2.1 / 2 ∧
      |(create_joint_anchors dir bs1 bs2).2.2| ≤ bs2.2 / 2 ∧
      ¬anchor_out_of_range (calculate_anchor dir bs1) bs1 ∧
      ¬anchor_out_of_range (calculate_anchor dir bs2) bs2 := by
  obtain ⟨a11, a12⟩ := abs_calculate_anchor_le dir bs1 h11 h12
  obtain ⟨a21, a22⟩ := abs_calculate_anchor_le dir bs2 h21 h22
  simp only [create_joint_anchors, Prod.fst_neg, Prod.snd_neg, abs_neg]
  refine ⟨a11, a12, a21, a22, ?_, ?_⟩
  · unfold anchor_out_of_range
    push_neg
    have b1 := abs_le.mp a11
    have b2 := abs_le.mp a12
    exact ⟨b1.2, by linarith [b1.1], b2.2, by linarith [b2.1]⟩
  · unfold anchor_out_of_range
    push_neg
    have b1 := abs_le.mp a21
    have b2 := abs_le.mp a22
    exact ⟨b1.2, by linarith [b1.1], b2.2, by linarith [b2.1]⟩

/-- Witness for `C9_anchors_within_half_extents` at the rightward connection
(1,0) between a 16×16 and a 32×16 block. -/
theorem C9_anchors_within_half_extents_witness :
    |(create_joint_anchors ((1 : ℝ), (0 : ℝ)) (16, 16) (32, 16)).1.1| ≤
        ((16 : ℝ), (16 : ℝ)).1 / 2 ∧
      |(create_joint_anchors ((1 : ℝ), (0 : ℝ)) (16, 16) (32, 16)).1.2| ≤
        ((16 : ℝ), (16 : ℝ)).2 / 2 ∧
      |(create_joint_anchors ((1 : ℝ), (0 : ℝ)) (16, 16) (32, 16)).2.1| ≤
        ((32 : ℝ), (16 : ℝ)).1 / 2 ∧
      |(create_joint_anchors ((1 : ℝ), (0 : ℝ)) (16, 16) (32, 16)).2.2| ≤
        ((32 : ℝ), (16 : ℝ)).2 / 2 ∧
      ¬anchor_out_of_range (calculate_anchor (1, 0) (16, 16)) (16, 16) ∧
      ¬anchor_out_of_range (calculate_anchor (1, 0) (32, 16)) (32, 16) := by
  exact C9_anchors_within_half_extents (1, 0) (16, 16) (32, 16)
    (by norm_num) (by norm_num) (by norm_num) (by norm_num)

/-- Claim C10 (counterexample): `tinyBlock` is 4×4 (both axes below half a
grid cell), occupies no grid cell — its own origin cell (0,0) is empty in the
global grid — and yet it IS joined to a neighbor: its origin probe at (1,0)
finds `rightOfTiny` and the pass creates the joint pair (0, 1), refuting the
claim's final clause that such a block can never be joined. -/
theorem C10_subcell_block_gets_joint :
    round_div_16 (4 : ℚ) = 0 ∧
      global_grid [tinyBlock, rightOfTiny] (GridCoords.mk 0 0) = none ∧
      create_mortar_joints [tinyBlock, rightOfTiny] = [(0, 1)] := by
  refine ⟨by decide, by decide, by decide⟩

/-- Claim C10 (amended): a block whose width or height is under 8 world units
(half the 16-unit grid cell) rounds to zero cells on that axis and the grid
indexer inserts nothing for it — the map is unchanged at every cell, so no
OTHER block's probe can ever discover it; the block itself, however, can
still be joined to neighbors via its own origin probes. -/
theorem C10_subcell_block_inserts_nothing (m : GridMap) (tl : GridCoords)
    (e : Entity) (bs : BlockSize) (h : bs.1 < 8 ∨ bs.2 < 8) (c : GridCoords) :
    insert_rectangle_into_map m tl e bs c = m c := by
  rw [insert_rectangle_into_map_apply]
  rcases h with h | h
  · have hw := round_div_16_nonpos bs.1 h
    split_ifs with hc
    · exfalso; omega
    · rfl
  · have hh := round_div_16_nonpos bs.2 h
    split_ifs with hc
    · exfalso; omega
    · rfl

/-- Witness for `C10_subcell_block_inserts_nothing`: a 4×16 block inserts
nothing at its own origin cell. -/
theorem C10_subcell_block_inserts_nothing_witness :
    insert_rectangle_into_map emptyGrid (GridCoords.mk 0 0) 3
        ((4 : ℚ), (16 : ℚ)) (GridCoords.mk 0 0) =
      emptyGrid (GridCoords.mk 0 0) :=
  C10_subcell_block_inserts_nothing emptyGrid (GridCoords.mk 0 0) 3 (4, 16)
    (Or.inl (by norm_num)) (GridCoords.mk 0 0)
